import Mathlib

/-!
Verification of the lifecycle pattern shared by the three Go HTTP service
variants in this repository (src/main.go and the two files concatenated in
src/unnamed/part_000), together with the request-handling helpers that are
present verbatim in the sources: the log-level parser, the request-id
middleware, and the global request counter.

The graceful-stop state machine itself (Idle, Starting, Running, Stopping,
Stopped, Failed) is the specification's abstraction of behaviour that the
sources delegate to the Go standard library's http.Server; definitions whose
doc comment starts with "Modelled from the spec:" embed that abstraction from
the specification's words.  Everything else is translated directly from the
source files, with the cited line numbers.
-/

/-- Lifecycle states of a server handle, as listed in the specification's data
model: Idle, Starting, Running, Stopping, Stopped, Failed. -/
inductive HState where
  | Idle
  | Starting
  | Running
  | Stopping
  | Stopped
  | Failed
deriving DecidableEq, Repr

/-- Position of a state along the forward order
Idle, Starting, Running, Stopping, Stopped, with Failed last (any move into
Failed from Starting or Running is a forward move). -/
def stateRank : HState → Nat
  | .Idle => 0
  | .Starting => 1
  | .Running => 2
  | .Stopping => 3
  | .Stopped => 4
  | .Failed => 5

/-- A system state: the handle's lifecycle state together with the number of
in-flight requests. -/
structure Sys where
  hstate : HState
  inFlight : Nat
deriving DecidableEq, Repr

/-- Actions that can happen to the lifecycle system: the listener goroutine
starting and resolving its bind, a new connection being accepted, an in-flight
request finishing, the shutdown signal arriving, the drain completing, the
shutdown timeout firing, and an unrecoverable serve error. -/
inductive Act where
  | bindBegin
  | bindOk
  | bindFail
  | accept
  | finish
  | sigStop
  | drainDone
  | timeoutFire
  | crash
deriving DecidableEq, Repr

/-- Modelled from the spec: one transition of the lifecycle state machine
(data-model and state-machine sections of the specification).  The sources
delegate the accept loop and the drain to http.Server (src/main.go lines 48
to 69, src/unnamed/part_000 lines 53 to 75), which is not part of this
repository, so the transitions follow the specification's words: connections
are accepted only while Running; after stop is invoked (Stopping) in-flight
requests keep draining but no accept transition exists; the drain completing
or the timeout firing moves to Stopped, the timeout forcibly terminating the
remaining connections; bind failure or a serve crash moves to Failed; Stopped
and Failed admit no further transition. -/
def sysStep (s : Sys) (a : Act) : Option Sys :=
  match s.hstate, a with
  | .Idle, .bindBegin => some ⟨.Starting, s.inFlight⟩
  | .Starting, .bindOk => some ⟨.Running, s.inFlight⟩
  | .Starting, .bindFail => some ⟨.Failed, s.inFlight⟩
  | .Running, .accept => some ⟨.Running, s.inFlight + 1⟩
  | .Running, .finish =>
      if s.inFlight = 0 then none else some ⟨.Running, s.inFlight - 1⟩
  | .Running, .crash => some ⟨.Failed, s.inFlight⟩
  | .Running, .sigStop => some ⟨.Stopping, s.inFlight⟩
  | .Stopping, .finish =>
      if s.inFlight = 0 then none else some ⟨.Stopping, s.inFlight - 1⟩
  | .Stopping, .drainDone =>
      if s.inFlight = 0 then some ⟨.Stopped, 0⟩ else none
  | .Stopping, .timeoutFire => some ⟨.Stopped, 0⟩
  | _, _ => none

/-- Run a sequence of actions from a system state, failing if any action has
no transition. -/
def sysRun (s : Sys) : List Act → Option Sys
  | [] => some s
  | a :: rest =>
      match sysStep s a with
      | some s2 => sysRun s2 rest
      | none => none

/-- Outcome of a stop call: clean success, forced close after the timeout, or
the recorded bind failure of a Failed handle. -/
inductive Outcome where
  | cleanSuccess
  | forced
  | bindFailed
deriving DecidableEq, Repr

/-- A server handle: bind address, lifecycle state, and the last stop or
failure outcome recorded on it. -/
structure Handle where
  addr : String
  state : HState
  lastOutcome : Option Outcome
deriving DecidableEq, Repr

/-- Modelled from the spec: stop(handle, timeout).  The sources call
http.Server.Shutdown with a context deadline (src/main.go lines 62 to 69,
src/unnamed/part_000 lines 68 to 75 and 266 to 275); Shutdown's internal
wait-or-force race is standard-library behaviour outside this repository, so
it is embedded from the specification's words.  drainTime abstracts how long
the in-flight requests need to finish.  If the drain beats the timeout the
handle becomes Stopped with a clean-success outcome; if the timeout elapses
first the remaining connections are forcibly closed, the handle still becomes
Stopped, and the outcome is forced.  On a handle already Stopped or Failed the
call is a no-op returning the last known outcome. -/
def stop (h : Handle) (timeout drainTime : Nat) : Handle × Outcome :=
  match h.state with
  | .Stopped => (h, h.lastOutcome.getD .cleanSuccess)
  | .Failed => (h, h.lastOutcome.getD .bindFailed)
  | _ =>
      if drainTime ≤ timeout then
        ({ h with state := .Stopped, lastOutcome := some .cleanSuccess },
          .cleanSuccess)
      else
        ({ h with state := .Stopped, lastOutcome := some .forced }, .forced)

/-- Error value returned by the modelled Shutdown call as main observes it:
nil when the drain finished inside the context deadline, the context's
deadline-exceeded error otherwise (src/unnamed/part_000 lines 68 to 71). -/
def shutdownErr (timeout drainTime : Nat) : Option String :=
  if drainTime ≤ timeout then none else some "context deadline exceeded"

/-- From src/unnamed/part_000 lines 71 to 75: the line main logs after
Shutdown returns, one branch per error case, so a forced stop is reported
rather than swallowed. -/
def logAfterShutdown : Option String → String
  | some m => "graceful shutdown failed: " ++ m
  | none => "server stopped cleanly"

/-- From src/unnamed/part_000 lines 53 to 59: the listener goroutine calls
os.Exit(1) exactly when ListenAndServe returns an error other than
ErrServerClosed, i.e. when the listener fails; after Shutdown is initiated
ListenAndServe returns ErrServerClosed and the goroutine does not exit the
process.  The argument is the non-ErrServerClosed error, if any. -/
def listenGoroutineExit : Option String → Option Nat
  | some _ => some 1
  | none => none

/-- From src/unnamed/part_000 main, lines 18 to 76: the process exit as a pair
of exit code and final log line.  If the listener goroutine saw a bind error
it exits 1; otherwise main blocks for the signal, calls Shutdown with its
timeout, logs the corresponding branch, and returns from main, which exits 0
whether or not the shutdown was forced. -/
def processExit (bindErr : Option String) (timeout drainTime : Nat) :
    Nat × String :=
  match listenGoroutineExit bindErr with
  | some c => (c, "server error")
  | none => (0, logAfterShutdown (shutdownErr timeout drainTime))

/-- From src/main.go lines 56 to 57 and src/unnamed/part_000 lines 62 to 63:
the signals signal.Notify registers on the shutdown channel are exactly
SIGINT and SIGTERM; the sources register no programmatic trigger. -/
inductive OsSignal where
  | sigint
  | sigterm
deriving DecidableEq, Repr

/-- From src/main.go line 59 and src/unnamed/part_000 line 65: main receives
from the shutdown channel and discards the received value, so the wait
produces the same unit result whichever registered signal arrived and main
learns nothing about which one it was. -/
def awaitShutdownSignal (_s : OsSignal) : Unit := ()

/-- From src/unnamed/part_000 lines 43 to 46 and 235 to 238 (and identically
src/main.go lines 36 to 40): the handler registered for the /health path
writes status 200 and the body ok.  The lifecycle state is an argument only so
that state-dependence can be stated; the source handler consults no state. -/
def healthEndpoint (_s : HState) : Nat × String := (200, "ok")

/-- From src/unnamed/part_000 lines 29 to 41: the root handler increments the
global requestCount with atomic.AddUint64, a wrapping 64-bit add, then
responds 200 with body hello.  The counter is passed and returned
explicitly. -/
def rootHandler (count : Nat) : Nat × (Nat × String) :=
  ((count + 1) % 2 ^ 64, (200, "hello\n"))

/-- From src/unnamed/part_000 lines 43 to 46: the health handler responds 200
ok and does not touch requestCount. -/
def healthHandlerCount (count : Nat) : Nat × (Nat × String) :=
  (count, (200, "ok"))

/-- From src/unnamed/part_000 lines 122 to 127: the Go LogLevel constants,
type LogLevel int with DEBUG = iota. -/
def DEBUG : Int := 0

/-- Second LogLevel constant. -/
def INFO : Int := 1

/-- Third LogLevel constant. -/
def WARN : Int := 2

/-- Fourth LogLevel constant. -/
def ERROR : Int := 3

/-- From src/unnamed/part_000 lines 180 to 191: parseLogLevel maps the strings
debug, warn and error to their constants and everything else, the empty string
included, to INFO. -/
def parseLogLevel (v : String) : Int :=
  if v = "debug" then DEBUG
  else if v = "warn" then WARN
  else if v = "error" then ERROR
  else INFO

/-- From src/unnamed/part_000 lines 165 to 178: LogLevel.String with its
default branch returning unknown for any value outside the four constants. -/
def LogLevel.String (l : Int) : String :=
  if l = DEBUG then "debug"
  else if l = INFO then "info"
  else if l = WARN then "warn"
  else if l = ERROR then "error"
  else "unknown"

/-- From src/unnamed/part_000 lines 193 to 196: statusRecorder wraps the
response writer; only its recorded status field matters here. -/
structure StatusRecorder where
  status : Nat
deriving DecidableEq, Repr

/-- From src/unnamed/part_000 lines 198 to 201: WriteHeader records the code
in the status field. -/
def StatusRecorder.writeHeader (_r : StatusRecorder) (code : Nat) :
    StatusRecorder :=
  ⟨code⟩

/-- From src/unnamed/part_000 line 281: the recorder the middleware creates,
initialised with status 200 before the wrapped handler runs. -/
def newStatusRecorder : StatusRecorder := ⟨200⟩

/-- What a wrapped route handler does to the response, as the middleware can
observe it: the optional status code it passes to WriteHeader (none when it
never calls WriteHeader) and the body it writes. -/
structure HandlerEffect where
  writeHeaderCode : Option Nat
  body : String

/-- Apply a handler's effect to the status recorder: a WriteHeader call
records its code, otherwise the recorder keeps its initial 200. -/
def runOnRecorder (r : StatusRecorder) (e : HandlerEffect) : StatusRecorder :=
  match e.writeHeaderCode with
  | some code => r.writeHeader code
  | none => r

/-- An inbound request as the middleware reads it: the value of its
X-Request-Id header (empty string when absent, as Header.Get returns), the
method and the path. -/
structure Request where
  xRequestId : String
  method : String
  path : String
deriving DecidableEq, Repr

/-- The middleware's observable result: the response headers it set and the
status it logs in the request-completed entry. -/
structure MwResult where
  responseHeaders : List (String × String)
  loggedStatus : Nat
deriving DecidableEq, Repr

/-- From src/unnamed/part_000 lines 278 to 305: withMiddleware wraps a
handler.  It creates a statusRecorder with status 200, reads the inbound
X-Request-Id header, generates a fresh id when that header is empty (freshId
stands for the value requestID() would produce), sets the X-Request-Id
response header to the chosen id, runs the wrapped handler against the
recorder, and logs the recorded status. -/
def withMiddleware (next : Request → HandlerEffect) (freshId : String)
    (r : Request) : MwResult :=
  let sr0 := newStatusRecorder
  let rid := if r.xRequestId = "" then freshId else r.xRequestId
  let sr1 := runOnRecorder sr0 (next r)
  { responseHeaders := [("X-Request-Id", rid)], loggedStatus := sr1.status }

/-- Helper: a single transition never decreases the state rank. -/
theorem sysStep_rank_mono (s : Sys) (a : Act) (s2 : Sys)
    (h : sysStep s a = some s2) : stateRank s.hstate ≤ stateRank s2.hstate := by
  rcases s with ⟨hs, n⟩
  cases hs <;> cases a <;>
    simp only [sysStep] at h <;>
    (try split at h) <;>
    (try cases h) <;>
    simp [stateRank]

/-- Helper: running any action sequence never decreases the state rank. -/
theorem sysRun_rank_mono (acts : List Act) (s s2 : Sys)
    (h : sysRun s acts = some s2) : stateRank s.hstate ≤ stateRank s2.hstate := by
  induction acts generalizing s with
  | nil =>
      simp only [sysRun, Option.some.injEq] at h
      subst h
      exact le_refl _
  | cons a rest ih =>
      simp only [sysRun] at h
      cases hstep : sysStep s a with
      | none => rw [hstep] at h; cases h
      | some s1 =>
          rw [hstep] at h
          exact le_trans (sysStep_rank_mono s a s1 hstep) (ih s1 h)

/-- Helper: no state of rank at least three (Stopping, Stopped, Failed) admits
an accept transition. -/
theorem accept_none_of_rank (s : Sys) (h : 3 ≤ stateRank s.hstate) :
    sysStep s Act.accept = none := by
  rcases s with ⟨hs, n⟩
  cases hs <;> first | rfl | (simp [stateRank] at h)

/-- C7: state transitions only move forward along Idle, Starting, Running,
Stopping, Stopped (any change of state strictly increases the rank, with
Failed last); Failed is entered only from Starting or Running; Stopped and
Failed are terminal: no transition leaves them. -/
theorem c7_state_machine_forward :
    (∀ s a s2, sysStep s a = some s2 → s.hstate ≠ s2.hstate →
      stateRank s.hstate < stateRank s2.hstate) ∧
    (∀ s a s2, sysStep s a = some s2 → s2.hstate = HState.Failed →
      s.hstate = HState.Starting ∨ s.hstate = HState.Running) ∧
    (∀ s a, s.hstate = HState.Stopped ∨ s.hstate = HState.Failed →
      sysStep s a = none) := by
  refine ⟨?_, ?_, ?_⟩
  · intro s a s2 h hne
    rcases s with ⟨hs, n⟩
    cases hs <;> cases a <;>
      simp only [sysStep] at h <;>
      (try split at h) <;>
      (try cases h) <;>
      simp_all [stateRank]
  · intro s a s2 h hf
    rcases s with ⟨hs, n⟩
    cases hs <;> cases a <;>
      simp only [sysStep] at h <;>
      (try split at h) <;>
      (try cases h) <;>
      simp_all
  · intro s a h
    rcases s with ⟨hs, n⟩
    cases hs <;> cases a <;> simp_all [sysStep]

/-- C7 witness: the terminal state Stopped admits no accept transition. -/
theorem c7_state_machine_forward_witness :
    sysStep ⟨HState.Stopped, 0⟩ Act.accept = none :=
  c7_state_machine_forward.2.2 ⟨HState.Stopped, 0⟩ Act.accept (Or.inl rfl)

/-- C4: once stop has been invoked (the handle is Stopping), no state
reachable by any action sequence from there admits an accept transition — a
new connection is never accepted again — while in-flight requests can still
finish one by one, draining the handle. -/
theorem c4_stop_refuses_new_connections (s : Sys)
    (hs : s.hstate = HState.Stopping) :
    (∀ acts s2, sysRun s acts = some s2 → sysStep s2 Act.accept = none) ∧
    (∀ n, s.inFlight = n + 1 →
      sysStep s Act.finish = some ⟨HState.Stopping, n⟩) := by
  constructor
  · intro acts s2 h
    apply accept_none_of_rank
    calc 3 = stateRank s.hstate := by rw [hs]; rfl
    _ ≤ stateRank s2.hstate := sysRun_rank_mono acts s s2 h
  · intro n hn
    rcases s with ⟨hst, m⟩
    simp only at hs hn
    subst hs
    subst hn
    simp [sysStep]

/-- C4 witness: from the state Stopping with one in-flight request, accepting
is impossible and the in-flight request can still finish. -/
theorem c4_stop_refuses_new_connections_witness :
    sysStep ⟨HState.Stopping, 1⟩ Act.accept = none ∧
    sysStep ⟨HState.Stopping, 1⟩ Act.finish = some ⟨HState.Stopping, 0⟩ :=
  ⟨(c4_stop_refuses_new_connections ⟨HState.Stopping, 1⟩ rfl).1 [] _ rfl,
   (c4_stop_refuses_new_connections ⟨HState.Stopping, 1⟩ rfl).2 0 rfl⟩

/-- C1: stopping a running handle always ends in Stopped; when the drain
finishes within the timeout the outcome is clean success; when the timeout
elapses first the outcome is forced — distinct from clean success — the
remaining connections are forcibly terminated (the timeout transition zeroes
the in-flight count), and main's log line for it differs from the
clean-success line, so the forced outcome is reported, not swallowed. -/
theorem c1_stop_outcome (h : Handle) (timeout drainTime : Nat)
    (hr : h.state = HState.Running) :
    (stop h timeout drainTime).1.state = HState.Stopped ∧
    (drainTime ≤ timeout →
      (stop h timeout drainTime).2 = Outcome.cleanSuccess) ∧
    (timeout < drainTime →
      (stop h timeout drainTime).2 = Outcome.forced ∧
      Outcome.forced ≠ Outcome.cleanSuccess ∧
      logAfterShutdown (shutdownErr timeout drainTime) ≠
        logAfterShutdown none) ∧
    (∀ n, sysStep ⟨HState.Stopping, n⟩ Act.timeoutFire =
      some ⟨HState.Stopped, 0⟩) := by
  have hred : stop h timeout drainTime =
      if drainTime ≤ timeout then
        (⟨h.addr, HState.Stopped, some Outcome.cleanSuccess⟩,
          Outcome.cleanSuccess)
      else
        (⟨h.addr, HState.Stopped, some Outcome.forced⟩, Outcome.forced) := by
    simp only [stop, hr]
  rw [hred]
  by_cases hd : drainTime ≤ timeout
  · rw [if_pos hd]
    exact ⟨rfl, fun _ => rfl, fun hlt => absurd hd (not_le.mpr hlt),
      fun n => rfl⟩
  · rw [if_neg hd]
    refine ⟨rfl, fun hle => absurd hle hd, fun _ => ⟨rfl, by decide, ?_⟩,
      fun n => rfl⟩
    have hse : shutdownErr timeout drainTime =
        some "context deadline exceeded" := by
      simp [shutdownErr, hd]
    rw [hse]
    decide

/-- C1 witness: on a concrete running handle with timeout 5, a drain taking 3
yields clean success and a drain taking 7 yields the forced outcome, Stopped
in both cases. -/
theorem c1_stop_outcome_witness :
    (stop ⟨":8090", HState.Running, none⟩ 5 3).1.state = HState.Stopped ∧
    (stop ⟨":8090", HState.Running, none⟩ 5 3).2 = Outcome.cleanSuccess ∧
    (stop ⟨":8090", HState.Running, none⟩ 5 7).2 = Outcome.forced :=
  ⟨(c1_stop_outcome ⟨":8090", HState.Running, none⟩ 5 3 rfl).1,
   (c1_stop_outcome ⟨":8090", HState.Running, none⟩ 5 3 rfl).2.1 (by decide),
   ((c1_stop_outcome ⟨":8090", HState.Running, none⟩ 5 7 rfl).2.2.1
     (by decide)).1⟩

/-- C5: stop is idempotent.  After stopping a running handle, a second stop
with any timeout and drain parameters returns the very same handle and the
same outcome as the first call; more generally, on any handle already Stopped
or Failed, stop is a no-op on the handle. -/
theorem c5_stop_idempotent (h : Handle) (t d t2 d2 : Nat)
    (hr : h.state = HState.Running) :
    (stop (stop h t d).1 t2 d2).1 = (stop h t d).1 ∧
    (stop (stop h t d).1 t2 d2).2 = (stop h t d).2 ∧
    (∀ h2 : Handle, h2.state = HState.Stopped ∨ h2.state = HState.Failed →
      (stop h2 t2 d2).1 = h2) := by
  have hred : stop h t d =
      if d ≤ t then
        (⟨h.addr, HState.Stopped, some Outcome.cleanSuccess⟩,
          Outcome.cleanSuccess)
      else
        (⟨h.addr, HState.Stopped, some Outcome.forced⟩, Outcome.forced) := by
    simp only [stop, hr]
  refine ⟨?_, ?_, ?_⟩
  · rw [hred]
    by_cases hd : d ≤ t
    · rw [if_pos hd]; rfl
    · rw [if_neg hd]; rfl
  · rw [hred]
    by_cases hd : d ≤ t
    · rw [if_pos hd]; rfl
    · rw [if_neg hd]; rfl
  · intro h2 hterm
    rcases h2 with ⟨a2, s2, o2⟩
    rcases hterm with hterm | hterm <;>
      (simp only at hterm; subst hterm; rfl)

/-- C5 witness: two sequential stops on a concrete running handle agree, and a
stop on a concrete Stopped handle leaves it unchanged. -/
theorem c5_stop_idempotent_witness :
    (stop (stop ⟨":8090", HState.Running, none⟩ 5 3).1 9 9).2 =
      (stop ⟨":8090", HState.Running, none⟩ 5 3).2 ∧
    (stop ⟨":8090", HState.Stopped, some Outcome.forced⟩ 5 3).1 =
      ⟨":8090", HState.Stopped, some Outcome.forced⟩ :=
  ⟨(c5_stop_idempotent ⟨":8090", HState.Running, none⟩ 5 3 9 9 rfl).2.1,
   (c5_stop_idempotent ⟨":8090", HState.Running, none⟩ 5 3 9 9 rfl).2.2
     ⟨":8090", HState.Stopped, some Outcome.forced⟩ (Or.inl rfl)⟩

/-- C2: the process exit code is 1 exactly when the listener goroutine saw a
listen error (bind failure), and 0 otherwise — in particular 0 for every
combination of shutdown timeout and drain time, i.e. after a clean stop and
after a forced stop alike. -/
theorem c2_exit_code (e : String) (timeout drainTime : Nat) :
    (processExit (some e) timeout drainTime).1 = 1 ∧
    (processExit none timeout drainTime).1 = 0 ∧
    (∀ bindErr : Option String,
      (processExit bindErr timeout drainTime).1 ≠ 0 ↔ bindErr.isSome) := by
  refine ⟨rfl, rfl, ?_⟩
  intro bindErr
  cases bindErr <;> simp [processExit, listenGoroutineExit]

/-- C2 witness: a concrete bind failure exits 1; with no bind failure the exit
code is 0 both when the drain (3) beats the timeout (5) and when the drain (9)
exceeds it. -/
theorem c2_exit_code_witness :
    (processExit (some "listen error") 5 3).1 = 1 ∧
    (processExit none 5 3).1 = 0 ∧
    (processExit none 5 9).1 = 0 :=
  ⟨(c2_exit_code "listen error" 5 3).1, (c2_exit_code "listen error" 5 3).2.1,
   (c2_exit_code "listen error" 5 9).2.1⟩

/-- C6 counterexample: the shutdown wait of the sources yields the identical
result for SIGINT and SIGTERM — the received value is discarded — so the
result does not determine which trigger occurred: no caller can distinguish
the shutdown causes, contrary to the claim. -/
theorem c6_await_counterexample :
    awaitShutdownSignal OsSignal.sigint = awaitShutdownSignal OsSignal.sigterm ∧
    ¬ (∀ s s2 : OsSignal,
        awaitShutdownSignal s = awaitShutdownSignal s2 → s = s2) := by
  refine ⟨rfl, fun h => ?_⟩
  have hc := h OsSignal.sigint OsSignal.sigterm rfl
  exact absurd hc (by decide)

/-- C6 amended: the shutdown wait registers exactly the two OS signals SIGINT
and SIGTERM — no programmatic trigger — and discards the received value, so
every registered trigger produces the identical unit result and the wait
returns no reason tag identifying the cause. -/
theorem c6_await_discards_signal (s s2 : OsSignal) :
    awaitShutdownSignal s = awaitShutdownSignal s2 ∧
    (s = OsSignal.sigint ∨ s = OsSignal.sigterm) := by
  refine ⟨rfl, ?_⟩
  cases s
  · exact Or.inl rfl
  · exact Or.inr rfl

/-- C3 counterexample: in the Stopping state the health endpoint still
answers 200 with body ok — a success status, not an error or unavailable
status (no status of 400 or above), contrary to the claim. -/
theorem c3_health_counterexample :
    healthEndpoint HState.Stopping = (200, "ok") ∧
    ¬ 400 ≤ (healthEndpoint HState.Stopping).1 :=
  ⟨rfl, by decide⟩

/-- C3 amended: the health endpoint answers status 200 — a success status —
with the short body ok in every lifecycle state, Running and Stopping alike;
the handlers in the sources never return an unavailable status while
Stopping. -/
theorem c3_health_always_ok (s : HState) :
    healthEndpoint s = (200, "ok") ∧
    200 ≤ (healthEndpoint s).1 ∧ (healthEndpoint s).1 < 300 :=
  ⟨rfl, by simp [healthEndpoint], by simp [healthEndpoint]⟩

/-- C8: the middleware's response always carries exactly one X-Request-Id
header — equal to the inbound header when that is non-empty and to the fresh
identifier otherwise — and the logged completion status is 200 whenever the
wrapped handler never calls WriteHeader. -/
theorem c8_middleware_request_id (next : Request → HandlerEffect)
    (freshId : String) (r : Request) :
    (withMiddleware next freshId r).responseHeaders =
      [("X-Request-Id", if r.xRequestId = "" then freshId else r.xRequestId)] ∧
    (r.xRequestId ≠ "" → (withMiddleware next freshId r).responseHeaders =
      [("X-Request-Id", r.xRequestId)]) ∧
    (r.xRequestId = "" → (withMiddleware next freshId r).responseHeaders =
      [("X-Request-Id", freshId)]) ∧
    ((next r).writeHeaderCode = none →
      (withMiddleware next freshId r).loggedStatus = 200) ∧
    (∀ code, (next r).writeHeaderCode = some code →
      (withMiddleware next freshId r).loggedStatus = code) := by
  refine ⟨rfl, ?_, ?_, ?_, ?_⟩
  · intro hne
    simp [withMiddleware, hne]
  · intro he
    simp [withMiddleware, he]
  · intro hnone
    simp [withMiddleware, runOnRecorder, hnone, newStatusRecorder]
  · intro code hcode
    simp [withMiddleware, runOnRecorder, hcode, StatusRecorder.writeHeader]

/-- C8 witness: with a handler that never calls WriteHeader, a request with
inbound id abc echoes abc, a request with an empty inbound id gets the fresh
id gen, and the logged status is 200. -/
theorem c8_middleware_request_id_witness :
    (withMiddleware (fun _ => ⟨none, "hello"⟩) "gen"
      ⟨"abc", "GET", "/"⟩).responseHeaders = [("X-Request-Id", "abc")] ∧
    (withMiddleware (fun _ => ⟨none, "hello"⟩) "gen"
      ⟨"", "GET", "/"⟩).responseHeaders = [("X-Request-Id", "gen")] ∧
    (withMiddleware (fun _ => ⟨none, "hello"⟩) "gen"
      ⟨"abc", "GET", "/"⟩).loggedStatus = 200 :=
  ⟨(c8_middleware_request_id (fun _ => ⟨none, "hello"⟩) "gen"
      ⟨"abc", "GET", "/"⟩).2.1 (by decide),
   (c8_middleware_request_id (fun _ => ⟨none, "hello"⟩) "gen"
      ⟨"", "GET", "/"⟩).2.2.1 rfl,
   (c8_middleware_request_id (fun _ => ⟨none, "hello"⟩) "gen"
      ⟨"abc", "GET", "/"⟩).2.2.2.1 rfl⟩

/-- C9 counterexample: the counter is a wrapping 64-bit unsigned add, so at
the value 2 to the 64th minus 1 the root handler wraps it to 0, which is a
strict decrease — unqualified monotonic non-decrease fails. -/
theorem c9_counter_counterexample :
    (rootHandler (2 ^ 64 - 1)).1 = 0 ∧
    (rootHandler (2 ^ 64 - 1)).1 < 2 ^ 64 - 1 := by
  constructor
  · show (2 ^ 64 - 1 + 1) % 2 ^ 64 = 0
    norm_num
  · show (2 ^ 64 - 1 + 1) % 2 ^ 64 < 2 ^ 64 - 1
    norm_num

/-- C9 amended: the root handler increments the counter by exactly one modulo
2 to the 64 (the wrapping 64-bit add of the source), the health handler leaves
it unchanged, and as long as the counter is below 2 to the 64 minus 1 the
increment is an exact plus-one and the counter never decreases; only at the
wrap point does it fall back to 0. -/
theorem c9_counter_behaviour (c : Nat) :
    (rootHandler c).1 = (c + 1) % 2 ^ 64 ∧
    (healthHandlerCount c).1 = c ∧
    (c < 2 ^ 64 - 1 → (rootHandler c).1 = c + 1 ∧ c ≤ (rootHandler c).1) := by
  refine ⟨rfl, rfl, ?_⟩
  intro hc
  have h1 : c + 1 < 2 ^ 64 := by omega
  have h2 : (rootHandler c).1 = c + 1 := by
    show (c + 1) % 2 ^ 64 = c + 1
    exact Nat.mod_eq_of_lt h1
  exact ⟨h2, by omega⟩

/-- C9 witness: at counter value 41 the root handler yields 42 and the health
handler yields 41. -/
theorem c9_counter_behaviour_witness :
    (rootHandler 41).1 = 42 ∧ (healthHandlerCount 41).1 = 41 :=
  ⟨((c9_counter_behaviour 41).2.2 (by norm_num)).1, (c9_counter_behaviour 41).2.1⟩

/-- C10: parseLogLevel returns INFO on every string other than debug, warn
and error — the empty string included — and composing LogLevel.String with
parseLogLevel always lands in the four names debug, info, warn, error and is
never unknown. -/
theorem c10_parse_log_level_total (v : String) :
    (v ≠ "debug" → v ≠ "warn" → v ≠ "error" → parseLogLevel v = INFO) ∧
    (LogLevel.String (parseLogLevel v) = "debug" ∨
     LogLevel.String (parseLogLevel v) = "info" ∨
     LogLevel.String (parseLogLevel v) = "warn" ∨
     LogLevel.String (parseLogLevel v) = "error") ∧
    LogLevel.String (parseLogLevel v) ≠ "unknown" := by
  unfold parseLogLevel LogLevel.String
  split_ifs <;> simp_all [DEBUG, INFO, WARN, ERROR]

/-- C10 witness: the empty string (LOG_LEVEL unset) parses to INFO, whose name
is info, not unknown. -/
theorem c10_parse_log_level_total_witness :
    parseLogLevel "" = INFO ∧ LogLevel.String (parseLogLevel "") ≠ "unknown" :=
  ⟨(c10_parse_log_level_total "").1 (by decide) (by decide) (by decide),
   (c10_parse_log_level_total "").2.2⟩
